import Mathlib

/-!
Verification of the activity-logging subsystem of a web storefront
(frontend activity middleware, SQLite-backed store, repository and
query layer), shallowly embedded in Lean 4.

The embedding follows the Go sources:
  * `db.go` (store): globals `db` / `once`, `InitDB`, `GetDB`, `CloseDB`;
  * `activity.go` (repository): `LogActivity`, `GetActivitiesBySession`,
    `GetRecentActivities`, `GetActivityStats`;
  * `middleware.go`: `getActivityType`, `responseRecorder`,
    `ActivityMiddleware.ServeHTTP`, `currentCurrency`.

Machine integers of the source are modelled as `Nat`; Go time values as
`Nat` timestamps; SQL tables as lists of rows in insertion order;
fallible operations return `Except` / pair with an `Option` error.
-/

namespace ActivityLog

/-! ## Store (db.go)

The store keeps two package-level variables: the shared `*sql.DB`
handle `db` (nil until set) and a `sync.Once` guard `once`.  A
connection handle is modelled by which setup steps have succeeded on
it: the WAL journal-mode pragma and the schema application.  The
environment of one initialization attempt records which of the four
fallible steps (directory creation, file open, pragma, schema) would
succeed. -/

/-- Model of a `*sql.DB` connection handle, tracking how much of the
setup ran against it. -/
structure DBConn where
  walEnabled : Bool
  schemaApplied : Bool
  deriving DecidableEq, Repr

/-- The package-level mutable state of the store: the `sync.Once`
guard and the shared handle (`none` models a nil `*sql.DB`). -/
structure StoreState where
  onceUsed : Bool
  db : Option DBConn
  deriving DecidableEq, Repr

/-- Outcomes of one run of the `once.Do` body, by failing step. -/
inductive InitError where
  | mkdirFailed
  | openFailed
  | pragmaFailed
  | schemaFailed
  deriving DecidableEq, Repr

/-- Which fallible steps of `InitDB`'s body would succeed in this
process environment. -/
structure InitEnv where
  mkdirOk : Bool
  openOk : Bool
  pragmaOk : Bool
  schemaOk : Bool
  deriving DecidableEq, Repr

/-- The body of `once.Do` inside `InitDB`: creates the data directory,
opens the database file, enables WAL mode, applies the schema; stops at
the first failing step.  Returns the resulting value of the global `db`
variable and the error, mirroring that `sql.Open` leaves `db` nil on
failure while pragma/schema failures leave the opened handle in `db`. -/
def initDBOnceBody (env : InitEnv) : Option DBConn × Option InitError :=
  if !env.mkdirOk then (none, some .mkdirFailed)
  else if !env.openOk then (none, some .openFailed)
  else if !env.pragmaOk then (some ⟨false, false⟩, some .pragmaFailed)
  else if !env.schemaOk then (some ⟨true, false⟩, some .schemaFailed)
  else (some ⟨true, true⟩, none)

/-- The function `InitDB` runs the setup body under `once.Do`.  If the `once` guard
has already fired, the body is skipped and the local `err` variable
stays nil, so the call returns no error regardless of what the earlier
attempt did. -/
def InitDB (st : StoreState) (env : InitEnv) : StoreState × Option InitError :=
  if st.onceUsed then (st, none)
  else
    let r := initDBOnceBody env
    ({ onceUsed := true, db := r.1 }, r.2)

/-- The accessor `GetDB` returns the current value of the shared handle, with no
check of any kind. -/
def GetDB (st : StoreState) : Option DBConn :=
  st.db

/-- The store state at process start: `once` unfired, `db` nil. -/
def freshStore : StoreState := { onceUsed := false, db := none }

/-! ## Activity records and classifier (activity.go, middleware.go) -/

/-- The activity-type string constants of activity.go. -/
def ActivityTypePageView : String := "page_view"

def ActivityTypeAddToCart : String := "add_to_cart"

def ActivityTypeEmptyCart : String := "empty_cart"

def ActivityTypeCheckout : String := "checkout"

def ActivityTypeCurrencyChange : String := "currency_change"

def ActivityTypeProductView : String := "product_view"

/-- The `ActivityLog` struct.  `time.Time` values are modelled as `Nat`
timestamps; `Details` (a JSON-encoded object in Go) is modelled as the
key/value list it encodes. -/
structure ActivityRow where
  id : Nat
  sessionID : String
  requestID : String
  activityType : String
  path : String
  method : String
  statusCode : Nat
  userCurrency : String
  details : List (String × String)
  createdAt : Nat
  deriving DecidableEq, Repr

/-- The parts of an `*http.Request` that the middleware reads: the mux
route (its path template, `none` when `mux.CurrentRoute` is nil), the
method and URL path, the context-supplied identifiers, the "currency"
cookie, the form fields, and the `{id}` route variable. -/
structure Request where
  route : Option String
  method : String
  urlPath : String
  sessionID : String
  requestID : String
  currencyCookie : Option String
  formProductID : String
  formQuantity : String
  formCurrencyCode : String
  routeVarID : String
  deriving DecidableEq, Repr

/-- The classifier `getActivityType` resolves the mux route; `"unknown"` when no
route matched, otherwise the first matching rule of the switch, with
`"other"` as the default branch. -/
def getActivityType (r : Request) : String :=
  match r.route with
  | none => ("unknown")
  | some path =>
    if path = "/" && r.method = "GET" then ActivityTypePageView
    else if path = "/cart" && r.method = "POST" then ActivityTypeAddToCart
    else if path = "/cart/empty" && r.method = "POST" then ActivityTypeEmptyCart
    else if path = "/cart/checkout" && r.method = "POST" then ActivityTypeCheckout
    else if path = "/setCurrency" && r.method = "POST" then ActivityTypeCurrencyChange
    else if path.startsWith ("/product/") && r.method = "GET" then ActivityTypeProductView
    else ("other")

/-- Reference classifier, following the words of §4.3 of the spec: an
ordered rule list evaluated top-to-bottom with first match winning,
over (method, route template); `"unknown"` when the route template
cannot be resolved.  Written from the spec's words, to be compared
with `getActivityType` (which is written from the code). -/
def classifySpec (method : String) (routeTemplate : Option String) : String :=
  match routeTemplate with
  | none => ("unknown")
  | some p =>
    if p = "/" && method = "GET" then ("page_view")
    else if p = "/cart" && method = "POST" then ("add_to_cart")
    else if p = "/cart/empty" && method = "POST" then ("empty_cart")
    else if p = "/cart/checkout" && method = "POST" then ("checkout")
    else if p = "/setCurrency" && method = "POST" then ("currency_change")
    else if p.startsWith ("/product/") && method = "GET" then ("product_view")
    else ("other")

/-- The fixed enumeration of activity types of the data model. -/
def activityTypeEnum : List String :=
  ["page_view", "add_to_cart", "empty_cart", "checkout",
   "currency_change", "product_view", "other", "unknown"]

/-- The helper `currentCurrency` reads the "currency" cookie's value, defaulting to
"USD" when the cookie is absent. -/
def currentCurrency (r : Request) : String :=
  match r.currencyCookie with
  | some v => v
  | none => ("USD")

/-! ## Repository (activity.go)

The `activities` table is a list of rows in insertion order; the
AUTOINCREMENT primary key is one more than the number of rows already
inserted.  Each SQL statement is embedded by its semantics on that
list.  Whether the underlying engine fails is an explicit parameter
(`ioFails`), since the Go code only propagates `Exec`/`Query` errors. -/

/-- The writer `LogActivity` performs a single-attempt INSERT of one row.  The bound
`created_at` parameter is `time.Now()` (the `now` argument), not the
record's `CreatedAt` field; the id is assigned by AUTOINCREMENT.  On
engine failure the error is returned and the table is unchanged. -/
def LogActivity (table : List ActivityRow) (a : ActivityRow) (now : Nat)
    (ioFails : Bool) : Except String (List ActivityRow) :=
  if ioFails then .error ("persistence error")
  else .ok (table ++ [{ a with id := table.length + 1, createdAt := now }])

/-- The descending `created_at` ordering of `ORDER BY created_at DESC`. -/
def createdDesc (a b : ActivityRow) : Prop :=
  b.createdAt ≤ a.createdAt

instance : DecidableRel createdDesc := fun a b =>
  inferInstanceAs (Decidable (b.createdAt ≤ a.createdAt))

instance : IsTotal ActivityRow createdDesc :=
  ⟨fun a b => Nat.le_total b.createdAt a.createdAt⟩

instance : IsTrans ActivityRow createdDesc :=
  ⟨fun _ _ _ hab hbc => Nat.le_trans hbc hab⟩

/-- Query `GetActivitiesBySession`: `WHERE session_id = ? ORDER BY created_at
DESC LIMIT ?`. -/
def GetActivitiesBySession (table : List ActivityRow) (sessionID : String)
    (limit : Nat) : List ActivityRow :=
  (((table.filter (fun a => a.sessionID = sessionID)).insertionSort
    createdDesc).take limit)

/-- Query `GetRecentActivities`: `ORDER BY created_at DESC LIMIT ?` over all
sessions. -/
def GetRecentActivities (table : List ActivityRow) (limit : Nat) :
    List ActivityRow :=
  ((table.insertionSort createdDesc).take limit)

/-- The `BETWEEN ? AND ?` window predicate on `created_at` (inclusive
at both ends). -/
def inWindow (startT endT : Nat) (a : ActivityRow) : Bool :=
  decide (startT ≤ a.createdAt) && decide (a.createdAt ≤ endT)

/-- Query `GetActivityStats`: `SELECT activity_type, COUNT(*) ... WHERE
created_at BETWEEN ? AND ? GROUP BY activity_type`, read into a map.
One pair per activity type present among the rows in the window. -/
def GetActivityStats (table : List ActivityRow) (startT endT : Nat) :
    List (String × Nat) :=
  (((table.filter (inWindow startT endT)).map (·.activityType)).dedup).map
    (fun t => (t,
      ((table.filter (inWindow startT endT)).filter
        (fun a => a.activityType = t)).length))

/-- The operations the subsystem exposes against the table. -/
inductive Op where
  | record (a : ActivityRow) (now : Nat) (ioFails : Bool)
  | listBySession (sessionID : String) (limit : Nat)
  | listRecent (limit : Nat)
  | statsByType (startT endT : Nat)

/-- The table after an operation runs: `record` appends via
`LogActivity` (leaving the table unchanged on failure); the three
queries are SELECT statements and write nothing. -/
def applyOp (table : List ActivityRow) : Op → List ActivityRow
  | .record a now ioFails =>
    match LogActivity table a now ioFails with
    | .ok table' => table'
    | .error _ => table
  | .listBySession _ _ => table
  | .listRecent _ => table
  | .statsByType _ _ => table

/-! ## Response recorder and middleware (middleware.go)

The wrapped handler's interaction with the `responseRecorder` is the
sequence of `Write` / `WriteHeader` calls it makes; body payloads are
kept as strings.  Every call is forwarded unchanged to the underlying
`ResponseWriter`, and the recorder's `status` field (zero-initialised)
is updated as in the Go methods. -/

/-- One call the handler makes on the response writer. -/
inductive WriteEvent where
  | write (body : String)
  | writeHeader (status : Nat)
  deriving DecidableEq, Repr

/-- The `status` field after one recorder method call: `Write` sets it
to 200 only when it is still 0; `WriteHeader` overwrites it. -/
def recStep (status : Nat) : WriteEvent → Nat
  | .write _ => if status = 0 then 200 else status
  | .writeHeader s => s

/-- The recorder's `status` after the handler made `events` calls on a
fresh `responseRecorder` (whose `status` starts at 0). -/
def recStatus (events : List WriteEvent) : Nat :=
  events.foldl recStep 0

/-- The status of a `writeHeader` event, if it is one. -/
def headerStatus? : WriteEvent → Option Nat
  | .write _ => none
  | .writeHeader s => some s

/-- Whether an event is a body write. -/
def isBodyWrite : WriteEvent → Bool
  | .write _ => true
  | .writeHeader _ => false

/-- The status the claim describes: the FIRST status code passed to
`WriteHeader`; 200 when there are body writes but no `WriteHeader`;
0 when the handler wrote nothing at all. -/
def firstHeaderStatus (events : List WriteEvent) : Nat :=
  ((events.filterMap headerStatus?).head?).getD
    (if events.any isBodyWrite then 200 else 0)

/-- The status the recorder actually keeps: the LAST status code
passed to `WriteHeader` (each call overwrites the field); 200 when
there are body writes but no `WriteHeader`; 0 when the handler wrote
nothing at all. -/
def lastHeaderStatus (events : List WriteEvent) : Nat :=
  ((events.filterMap headerStatus?).getLast?).getD
    (if events.any isBodyWrite then 200 else 0)

/-- The helper `extractDetails` builds the details map by the switch on the
activity type after the handler returns.  The product-view branch is
guarded by `mux.CurrentRoute(r) != nil` as in the code. -/
def extractDetails (r : Request) (activityType : String) :
    List (String × String) :=
  if activityType = ActivityTypeAddToCart then
    [("product_id", r.formProductID), ("quantity", r.formQuantity)]
  else if activityType = ActivityTypeProductView then
    match r.route with
    | some _ => [("product_id", r.routeVarID)]
    | none => []
  else if activityType = ActivityTypeCurrencyChange then
    [("new_currency", r.formCurrencyCode)]
  else []

/-- What one `ServeHTTP` call produces: the calls forwarded to the
underlying `ResponseWriter` (the response the caller sees), the
activity record handed to `LogActivity`, the table afterwards, and
whether the persistence-failure warning was logged. -/
structure ServeResult where
  response : List WriteEvent
  activity : ActivityRow
  table : List ActivityRow
  warned : Bool
  deriving DecidableEq, Repr

/-- The method `ActivityMiddleware.ServeHTTP` builds the pre-dispatch record,
runs the wrapped handler through the recorder (the handler's calls,
`handlerEvents`, are forwarded one-for-one to the underlying writer),
finalizes the status code from the recorder, attaches the details map
when non-empty, and calls `LogActivity`; a `LogActivity` error is only
logged as a warning. -/
def ServeHTTP (r : Request) (handlerEvents : List WriteEvent)
    (table : List ActivityRow) (now : Nat) (ioFails : Bool) : ServeResult :=
  let activity0 : ActivityRow :=
    { id := 0
      sessionID := r.sessionID
      requestID := r.requestID
      activityType := getActivityType r
      path := r.urlPath
      method := r.method
      statusCode := 0
      userCurrency := currentCurrency r
      details := []
      createdAt := 0 }
  let activity1 := { activity0 with statusCode := recStatus handlerEvents }
  let details := extractDetails r activity1.activityType
  let activity2 :=
    if 0 < details.length then { activity1 with details := details }
    else activity1
  match LogActivity table activity2 now ioFails with
  | .ok table' => ⟨handlerEvents, activity2, table', false⟩
  | .error _ => ⟨handlerEvents, activity2, table, true⟩

/-! ## Theorems -/

/-- A second `InitDB` call on a state whose `once` guard has fired is
the identity and returns no error. -/
theorem initDB_of_onceUsed (st : StoreState) (env : InitEnv)
    (h : st.onceUsed = true) : InitDB st env = (st, none) := by
  simp [InitDB, h]

/-- Claim C1 counterexample.  The claim says `GetDB` reports an
Uninitialized error/panic when called before `InitDB` has succeeded.
It does not: on a fresh store `GetDB` returns the nil handle, and
after an initialization attempt that failed at the journal-mode
pragma, `GetDB` returns the partially-set-up connection handle (opened
but with neither WAL mode nor the schema applied) — no error of any
kind is produced. -/
theorem getDB_uninitialized_counterexample :
    GetDB freshStore = none ∧
    (InitDB freshStore ⟨true, true, false, true⟩).2 = some .pragmaFailed ∧
    GetDB (InitDB freshStore ⟨true, true, false, true⟩).1 =
      some { walEnabled := false, schemaApplied := false } := by
  decide

/-- Claim C1, amended.  `GetDB` performs no initialization check: it
returns exactly the current value of the shared handle — nil before
any initialization attempt, and whatever the attempt left in the
global `db` variable afterwards (nil when directory creation or file
open failed; the partially-set-up handle when the pragma or the schema
application failed).  After any failed attempt the handle never has
the schema applied. -/
theorem getDB_returns_raw_handle (m o p s : Bool) :
    GetDB freshStore = none ∧
    GetDB (InitDB freshStore ⟨m, o, p, s⟩).1 = (initDBOnceBody ⟨m, o, p, s⟩).1 ∧
    ((initDBOnceBody ⟨m, o, p, s⟩).2 = none ∨
      (initDBOnceBody ⟨m, o, p, s⟩).1 = none ∨
      ∃ c, (initDBOnceBody ⟨m, o, p, s⟩).1 = some c ∧ c.schemaApplied = false) := by
  refine ⟨rfl, rfl, ?_⟩
  cases m <;> cases o <;> cases p <;> cases s <;> simp [initDBOnceBody]

/-- Claim C4..  `InitDB` is idempotent: if the first call (from the fresh
process state) succeeded, a second call — under any environment —
performs no setup work, returns no error, leaves the state unchanged,
and the shared handle is the fully-set-up one produced by the first
call (WAL enabled, schema applied). -/
theorem initDB_idempotent (env env2 : InitEnv)
    (h : (InitDB freshStore env).2 = none) :
    InitDB (InitDB freshStore env).1 env2 = ((InitDB freshStore env).1, none) ∧
    GetDB (InitDB freshStore env).1 =
      some { walEnabled := true, schemaApplied := true } := by
  obtain ⟨m, o, p, s⟩ := env
  cases m <;> cases o <;> cases p <;> cases s <;>
    simp_all [InitDB, initDBOnceBody, freshStore, GetDB]

/-- Claim C4 witness at a concrete input): first call in an
all-succeeding environment, second call in an all-failing one. -/
theorem initDB_idempotent_witness :
    (InitDB freshStore ⟨true, true, true, true⟩).2 = none ∧
    (InitDB (InitDB freshStore ⟨true, true, true, true⟩).1
        ⟨false, false, false, false⟩ =
      ((InitDB freshStore ⟨true, true, true, true⟩).1, none) ∧
    GetDB (InitDB freshStore ⟨true, true, true, true⟩).1 =
      some { walEnabled := true, schemaApplied := true }) :=
  ⟨by decide,
   initDB_idempotent ⟨true, true, true, true⟩ ⟨false, false, false, false⟩
     (by decide)⟩

/-- Claim C6..  If the first `InitDB` call (from the fresh process state)
failed at any step, every subsequent call returns nil (no error),
performs no retry (the state is unchanged, under any environment), and
the shared handle never has the schema applied: the subsystem stays
uninitialized for the rest of the process lifetime. -/
theorem initDB_failure_not_retried (env env2 : InitEnv) (e : InitError)
    (h : (InitDB freshStore env).2 = some e) :
    InitDB (InitDB freshStore env).1 env2 = ((InitDB freshStore env).1, none) ∧
    ∀ c, GetDB (InitDB (InitDB freshStore env).1 env2).1 = some c →
      c.schemaApplied = false := by
  obtain ⟨m, o, p, s⟩ := env
  cases m <;> cases o <;> cases p <;> cases s <;>
    simp_all [InitDB, initDBOnceBody, freshStore, GetDB]

/-- Claim C6 witness at a concrete input): the pragma fails on the first
attempt; the second attempt's environment would succeed, yet `InitDB`
reports success without retrying and the schema is still absent. -/
theorem initDB_failure_not_retried_witness :
    (InitDB freshStore ⟨true, true, false, true⟩).2 = some .pragmaFailed ∧
    (InitDB (InitDB freshStore ⟨true, true, false, true⟩).1
        ⟨true, true, true, true⟩ =
      ((InitDB freshStore ⟨true, true, false, true⟩).1, none) ∧
    ∀ c, GetDB (InitDB (InitDB freshStore ⟨true, true, false, true⟩).1
        ⟨true, true, true, true⟩).1 = some c → c.schemaApplied = false) :=
  ⟨by decide,
   initDB_failure_not_retried ⟨true, true, false, true⟩ ⟨true, true, true, true⟩
     .pragmaFailed (by decide)⟩

/-- Claim C2..  The classifier agrees with the spec's reference rule list
on every request (`"unknown"` when no route is resolvable, otherwise
the seven ordered rules with first match winning), always returns a
value of the fixed enumeration, and on a routed POST
"/cart/checkout" returns `"checkout"` (never falling through to
`"other"`), whatever the rest of the request looks like. -/
theorem getActivityType_spec (r : Request) :
    getActivityType r = classifySpec r.method r.route ∧
    getActivityType r ∈ activityTypeEnum ∧
    getActivityType { r with route := some ("/cart/checkout"), method := "POST" } =
      ActivityTypeCheckout := by
  refine ⟨?_, ?_, rfl⟩
  · obtain ⟨route, method, _, _, _, _, _, _, _, _⟩ := r
    cases route <;> rfl
  · cases hr : r.route with
    | none => simp [getActivityType, hr, activityTypeEnum]
    | some p =>
      simp only [getActivityType, hr]
      split_ifs <;>
        simp [activityTypeEnum, ActivityTypePageView, ActivityTypeAddToCart,
          ActivityTypeEmptyCart, ActivityTypeCheckout,
          ActivityTypeCurrencyChange, ActivityTypeProductView]

/-- Appending one more writer call folds one more `recStep`. -/
theorem recStatus_concat (events : List WriteEvent) (e : WriteEvent) :
    recStatus (events ++ [e]) = recStep (recStatus events) e := by
  simp [recStatus]

/-- The recorder's final status is the last `WriteHeader` status (200
when there were body writes but no `WriteHeader`, 0 when the handler
wrote nothing), provided the handler never passes status 0 to
`WriteHeader`. -/
theorem recStatus_eq_lastHeaderStatus (events : List WriteEvent)
    (h : (events.filterMap headerStatus?).all (fun s => s != 0) = true) :
    recStatus events = lastHeaderStatus events := by
  induction events using List.reverseRecOn with
  | nil => rfl
  | append_singleton es e ih =>
    have hes : (es.filterMap headerStatus?).all (fun s => s != 0) = true := by
      rw [List.filterMap_append, List.all_append] at h
      exact (Bool.and_eq_true_iff.mp h).1
    rw [recStatus_concat]
    cases e with
    | writeHeader s =>
      simp [lastHeaderStatus, List.filterMap_append, headerStatus?,
        List.getLast?_concat, recStep]
    | write b =>
      have ih' := ih hes
      unfold lastHeaderStatus at ih' ⊢
      rw [List.filterMap_append]
      simp only [List.filterMap_cons, headerStatus?, List.filterMap_nil,
        List.append_nil, List.any_append, List.any_cons, isBodyWrite,
        List.any_nil, Bool.or_true, Bool.or_false, if_true, recStep]
      cases hl : (es.filterMap headerStatus?).getLast? with
      | some s =>
        rw [hl] at ih'
        have hs : s ≠ 0 := by
          have hmem : s ∈ es.filterMap headerStatus? :=
            List.mem_of_getLast?_eq_some hl
          simpa using List.all_eq_true.mp hes s hmem
        simp only [Option.getD_some] at ih' ⊢
        rw [ih', if_neg hs]
      | none =>
        rw [hl] at ih'
        simp only [Option.getD_none] at ih' ⊢
        rw [ih']
        cases es.any isBodyWrite <;> simp

/-- The status the middleware stores in the activity is exactly the
recorder's final status. -/
theorem serveHTTP_statusCode (r : Request) (events : List WriteEvent)
    (table : List ActivityRow) (now : Nat) (ioFails : Bool) :
    (ServeHTTP r events table now ioFails).activity.statusCode =
      recStatus events := by
  unfold ServeHTTP
  cases ioFails <;> dsimp [LogActivity] <;> split <;> rfl

/-- A concrete request used to evaluate the middleware model. -/
def sampleRequest : Request :=
  { route := some ("/")
    method := "GET"
    urlPath := "/"
    sessionID := "sess-1"
    requestID := "req-1"
    currencyCookie := none
    formProductID := ""
    formQuantity := ""
    formCurrencyCode := ""
    routeVarID := "" }

/-- Claim C3 counterexample.  The claim says the recorded status is the
FIRST status code the handler wrote via `WriteHeader`.  It is not:
`responseRecorder.WriteHeader` overwrites the `status` field on every
call, so a handler that writes status 200 and then status 500 is
recorded — and stored in the activity — with 500, while the first
status written was 200. -/
theorem recorder_first_status_counterexample :
    recStatus [.writeHeader 200, .writeHeader 500] = 500 ∧
    firstHeaderStatus [.writeHeader 200, .writeHeader 500] = 200 ∧
    (ServeHTTP sampleRequest [.writeHeader 200, .writeHeader 500]
      [] 1 false).activity.statusCode = 500 := by
  decide

/-- Claim C3, amended.  The status recorded for the activity is the
LAST status code the handler wrote via `WriteHeader` (each call
overwrites the field); if the handler wrote body bytes without ever
calling `WriteHeader`, the recorded status is 200; and this recorded
value is what the middleware stores in the activity's `StatusCode`
after the handler returns.  (Stated for handlers that never pass the
sentinel status 0 to `WriteHeader`.) -/
theorem recorder_last_status (r : Request) (events : List WriteEvent)
    (table : List ActivityRow) (now : Nat) (ioFails : Bool)
    (h : (events.filterMap headerStatus?).all (fun s => s != 0) = true) :
    recStatus events = lastHeaderStatus events ∧
    (ServeHTTP r events table now ioFails).activity.statusCode =
      recStatus events :=
  ⟨recStatus_eq_lastHeaderStatus events h,
   serveHTTP_statusCode r events table now ioFails⟩

/-- Claim C3 witness at a concrete input): a handler that writes status
404 and then body bytes. -/
theorem recorder_last_status_witness :
    (([WriteEvent.writeHeader 404,
       WriteEvent.write ("nf")].filterMap headerStatus?).all
      (fun s => s != 0) = true) ∧
    (recStatus [WriteEvent.writeHeader 404, WriteEvent.write ("nf")] =
      lastHeaderStatus [WriteEvent.writeHeader 404, WriteEvent.write ("nf")] ∧
    (ServeHTTP sampleRequest [WriteEvent.writeHeader 404, WriteEvent.write ("nf")]
        [] 3 false).activity.statusCode =
      recStatus [WriteEvent.writeHeader 404, WriteEvent.write ("nf")]) :=
  ⟨by decide,
   recorder_last_status sampleRequest
     [WriteEvent.writeHeader 404, WriteEvent.write ("nf")] [] 3 false (by decide)⟩

/-- Claim C5..  The response delivered to the caller — the sequence of
writes forwarded through the recorder to the underlying
`ResponseWriter` — is identical whether the trailing `LogActivity`
call fails or succeeds: it is exactly the handler's own writes in both
cases, and a persistence failure only sets the warning log. -/
theorem serveHTTP_response_unaffected_by_persistence (r : Request)
    (handlerEvents : List WriteEvent) (table : List ActivityRow) (now : Nat) :
    (ServeHTTP r handlerEvents table now true).response =
      (ServeHTTP r handlerEvents table now false).response ∧
    (ServeHTTP r handlerEvents table now true).response = handlerEvents ∧
    (ServeHTTP r handlerEvents table now false).response = handlerEvents ∧
    (ServeHTTP r handlerEvents table now true).warned = true ∧
    (ServeHTTP r handlerEvents table now false).warned = false := by
  unfold ServeHTTP
  dsimp [LogActivity]
  exact ⟨rfl, rfl, rfl, rfl, rfl⟩

/-- Reference count, following the spec's words (§4.2 statsByType):
the number of persisted records of activity type `t` whose creation
time falls within `[startT, endT]` inclusive. -/
def windowCount (table : List ActivityRow) (startT endT : Nat)
    (t : String) : Nat :=
  (table.filter
    (fun a => decide (a.activityType = t) && inWindow startT endT a)).length

/-- Claim C9..  `LogActivity` on a working store inserts exactly one row,
whose creation timestamp is the insert-time clock value `now` — the
caller-supplied `CreatedAt` is ignored (the result is the same for
every value of it) — and whose other columns are the record's fields;
on storage failure the single attempt returns the error and the table
is unchanged (no retry exists). -/
theorem logActivity_spec (table : List ActivityRow) (a : ActivityRow)
    (now : Nat) :
    (∃ r, LogActivity table a now false = .ok (table ++ [r]) ∧
      r.createdAt = now ∧ r.sessionID = a.sessionID ∧
      r.requestID = a.requestID ∧ r.activityType = a.activityType ∧
      r.path = a.path ∧ r.method = a.method ∧
      r.statusCode = a.statusCode ∧ r.userCurrency = a.userCurrency ∧
      r.details = a.details) ∧
    (∀ t0 : Nat, LogActivity table { a with createdAt := t0 } now false =
      LogActivity table a now false) ∧
    LogActivity table a now true = .error ("persistence error") := by
  exact ⟨⟨{ a with id := table.length + 1, createdAt := now },
    rfl, rfl, rfl, rfl, rfl, rfl, rfl, rfl, rfl, rfl⟩, fun _ => rfl, rfl⟩

/-- Claim C10..  Rows already persisted are never modified or deleted:
every operation of the subsystem maps the table to itself followed by
some (possibly empty) list of appended rows, and the three query
operations leave the table exactly unchanged. -/
theorem table_append_only (table : List ActivityRow) (op : Op) :
    (∃ tail, applyOp table op = table ++ tail) ∧
    (∀ s n, applyOp table (Op.listBySession s n) = table) ∧
    (∀ n, applyOp table (Op.listRecent n) = table) ∧
    (∀ s e, applyOp table (Op.statsByType s e) = table) := by
  refine ⟨?_, fun _ _ => rfl, fun _ => rfl, fun _ _ => rfl⟩
  cases op with
  | record a now ioFails =>
    cases ioFails
    · exact ⟨[{ a with id := table.length + 1, createdAt := now }], rfl⟩
    · exact ⟨[], (List.append_nil table).symm⟩
  | listBySession s n => exact ⟨[], (List.append_nil table).symm⟩
  | listRecent n => exact ⟨[], (List.append_nil table).symm⟩
  | statsByType s e => exact ⟨[], (List.append_nil table).symm⟩

/-- Claim C8..  For every session identifier, positive limit and table,
`GetActivitiesBySession` returns only rows of that session, at most
`limit` of them, ordered non-increasing by creation time (most recent
first). -/
theorem getActivitiesBySession_spec (table : List ActivityRow)
    (sessionID : String) (limit : Nat) (_hpos : 0 < limit) :
    (∀ a ∈ GetActivitiesBySession table sessionID limit,
      a.sessionID = sessionID) ∧
    (GetActivitiesBySession table sessionID limit).length ≤ limit ∧
    (GetActivitiesBySession table sessionID limit).Pairwise createdDesc := by
  refine ⟨?_, ?_, ?_⟩
  · intro a ha
    unfold GetActivitiesBySession at ha
    have h1 := List.mem_of_mem_take ha
    have h2 := (List.perm_insertionSort createdDesc _).mem_iff.mp h1
    simpa using (List.mem_filter.mp h2).2
  · exact List.length_take_le _ _
  · exact List.Pairwise.sublist (List.take_sublist _ _)
      (List.sorted_insertionSort createdDesc _)

/-- Three concrete rows over two sessions, out of creation order. -/
def sampleTable : List ActivityRow :=
  [{ id := 1, sessionID := "s1", requestID := "r1",
     activityType := "page_view", path := "/", method := "GET",
     statusCode := 200, userCurrency := "USD", details := [],
     createdAt := 10 },
   { id := 2, sessionID := "s2", requestID := "r2",
     activityType := "checkout", path := "/cart/checkout", method := "POST",
     statusCode := 200, userCurrency := "EUR", details := [],
     createdAt := 12 },
   { id := 3, sessionID := "s1", requestID := "r3",
     activityType := "page_view", path := "/", method := "GET",
     statusCode := 200, userCurrency := "USD", details := [],
     createdAt := 15 }]

/-- Claim C8 witness at a concrete input): session "s1", limit 2, over
`sampleTable`. -/
theorem getActivitiesBySession_spec_witness :
    0 < 2 ∧
    ((∀ a ∈ GetActivitiesBySession sampleTable ("s1") 2,
      a.sessionID = "s1") ∧
    (GetActivitiesBySession sampleTable ("s1") 2).length ≤ 2 ∧
    (GetActivitiesBySession sampleTable ("s1") 2).Pairwise createdDesc) :=
  ⟨by decide, getActivitiesBySession_spec sampleTable ("s1") 2 (by decide)⟩

/-- Claim C7..  `GetActivityStats` is exactly the spec's mapping: a pair
`(t, c)` is in the result precisely when `c` is the (positive) number
of rows of type `t` whose creation time lies within the inclusive
window; a type with zero matching rows is absent (no pair for it, with
0 or otherwise); and the result is a mapping — each type occurs at
most once as a key. -/
theorem getActivityStats_spec (table : List ActivityRow) (startT endT : Nat)
    (t : String) (c : Nat) :
    ((t, c) ∈ GetActivityStats table startT endT ↔
      c = windowCount table startT endT t ∧ 0 < c) ∧
    ((GetActivityStats table startT endT).map Prod.fst).Nodup := by
  have hcnt : ∀ t' : String,
      ((table.filter (inWindow startT endT)).filter
        (fun a => decide (a.activityType = t'))).length =
      windowCount table startT endT t' := by
    intro t'
    rw [List.filter_filter]
    rfl
  constructor
  · constructor
    · intro hmem
      unfold GetActivityStats at hmem
      rcases List.mem_map.mp hmem with ⟨t', ht', heq⟩
      rw [Prod.mk.injEq] at heq
      obtain ⟨rfl, rfl⟩ := heq
      refine ⟨hcnt t', ?_⟩
      rcases List.mem_map.mp (List.mem_dedup.mp ht') with ⟨a, ha, hta⟩
      have hmemf : a ∈ (table.filter (inWindow startT endT)).filter
          (fun x => decide (x.activityType = t')) :=
        List.mem_filter.mpr ⟨ha, by simp [hta]⟩
      exact List.length_pos.mpr (List.ne_nil_of_mem hmemf)
    · rintro ⟨rfl, hpos⟩
      unfold GetActivityStats
      have hlen : 0 < ((table.filter (inWindow startT endT)).filter
          (fun a => decide (a.activityType = t))).length := by
        rw [hcnt t]; exact hpos
      obtain ⟨a, ha⟩ :=
        List.exists_mem_of_ne_nil _ (List.length_pos.mp hlen)
      have ha' := List.mem_filter.mp ha
      have hta : a.activityType = t := by simpa using ha'.2
      have htmem : t ∈ ((table.filter (inWindow startT endT)).map
          (·.activityType)).dedup :=
        List.mem_dedup.mpr (List.mem_map.mpr ⟨a, ha'.1, hta⟩)
      refine List.mem_map.mpr ⟨t, htmem, ?_⟩
      rw [Prod.mk.injEq]
      exact ⟨rfl, hcnt t⟩
  · unfold GetActivityStats
    rw [List.map_map]
    show (((table.filter (inWindow startT endT)).map
      (·.activityType)).dedup.map (fun t' : String => t')).Nodup
    rw [List.map_id']
    exact List.nodup_dedup _

end ActivityLog
